import Mathlib

/-!
Verification development for the ELISA laboratory core:
Westgard QC rule evaluator (`src/qc/westgard.py`), logistic curve-fitting
engine (`src/analytics/curve_fitting.py`), and the SOP step sequencer
(`src/sop_runner/workflow.py`).

Python floats are modelled by rationals `ℚ`; wall-clock timestamps by
integers (seconds); dictionaries of string fields by association lists
`List (String × String)`; exceptions by `Except String` results.  The
real-valued power `x ** b` used by the logistic model functions has no
computable rational counterpart, so every definition that needs it takes
an abstract exponentiation function `rpow : ℚ → ℚ → ℚ` as a parameter;
all theorems hold for every such function.
-/

namespace ElisaLab

/-! ## Westgard QC evaluator (`src/qc/westgard.py`) -/

/-- A single quality-control observation, mirroring the `ControlResult`
dataclass: run number, measured value, and the assay mean / standard
deviation the value is judged against. -/
structure ControlResult where
  run : ℤ
  value : ℚ
  mean : ℚ
  sd : ℚ
deriving DecidableEq, Repr

/-- Embeds `ControlResult.z_score`: `(value - mean) / sd` when `sd` is nonzero
(Python truthiness of a float), and `0.0` when `sd` is zero. -/
def ControlResult.z_score (r : ControlResult) : ℚ :=
  if r.sd ≠ 0 then (r.value - r.mean) / r.sd else 0

/-- The z-score sequence of an ordered list of control results
(`z_scores = [r.z_score for r in results]`). -/
def z_scores (results : List ControlResult) : List ℚ :=
  results.map ControlResult.z_score

/-- The breach report: one ascending index list per Westgard rule,
mirroring the dictionary returned by `check_westgard`. -/
structure WestgardBreaches where
  rule_1_2s : List ℕ
  rule_1_3s : List ℕ
  rule_2_2s : List ℕ
  rule_r_4s : List ℕ
  rule_4_1s : List ℕ
  rule_10_x : List ℕ
deriving DecidableEq, Repr

/-- Embeds `check_westgard`: evaluates the six Westgard rules over the z-score
sequence.  The Python loop scans indices left to right and appends each
breaching index to the matching rule's list; filtering `List.range`
produces exactly those ascending lists.  Out-of-range accesses never
occur because every inspected index is at most the loop index. -/
def check_westgard (results : List ControlResult) : WestgardBreaches :=
  let zs := z_scores results
  let z : ℕ → ℚ := fun j => zs.getD j 0
  { rule_1_2s := (List.range results.length).filter fun i => decide (2 ≤ |z i|)
    rule_1_3s := (List.range results.length).filter fun i => decide (3 ≤ |z i|)
    rule_2_2s := (List.range results.length).filter fun i =>
      decide (1 ≤ i) && decide (2 ≤ |z i|) && decide (2 ≤ |z (i - 1)|)
    rule_r_4s := (List.range results.length).filter fun i =>
      decide (1 ≤ i) && decide (4 ≤ |z i - z (i - 1)|) && decide (z i * z (i - 1) < 0)
    rule_4_1s := (List.range results.length).filter fun i =>
      decide (3 ≤ i) && ((List.range' (i - 3) 4).all fun j => decide (1 ≤ |z j|))
    rule_10_x := (List.range results.length).filter fun i =>
      decide (9 ≤ i) &&
        (((zs.drop (i - 9)).take 10).all (fun s => decide (0 < s)) ||
          ((zs.drop (i - 9)).take 10).all (fun s => decide (s < 0))) }

/-- Embeds `levey_jennings_points`: one `(run, value, z_score)` triple per input
element, in input order. -/
def levey_jennings_points (results : List ControlResult) : List (ℤ × ℚ × ℚ) :=
  results.map fun r => (r.run, r.value, r.z_score)

/-! ## Curve fitting (`src/analytics/curve_fitting.py`) -/

/-- The result of a fit, mirroring the `FitResult` dataclass; the
parameter dictionary becomes an association list in insertion order. -/
structure FitResult where
  model : String
  parameters : List (String × ℚ)
  r_squared : ℚ
  predictions : List (ℚ × ℚ)
  converged : Bool
  status : String
deriving DecidableEq, Repr

/-- Embeds `four_parameter_logistic`: `d + (a - d) / (1 + (x / c) ** b)`, with
the float power `**` supplied as the abstract `rpow`. -/
def four_parameter_logistic (rpow : ℚ → ℚ → ℚ) (x a b c d : ℚ) : ℚ :=
  d + (a - d) / (1 + rpow (x / c) b)

/-- Embeds `five_parameter_logistic`:
`d + (a - d) / ((1 + (x / c) ** b) ** g)`, both powers via `rpow`. -/
def five_parameter_logistic (rpow : ℚ → ℚ → ℚ) (x a b c d g : ℚ) : ℚ :=
  d + (a - d) / rpow (1 + rpow (x / c) b) g

/-- Embeds the private `_r_squared` helper: `1 - ss_res / ss_tot` guarded by the truthiness of
`ss_tot` (`... if ss_tot else 0.0`). -/
def r_squared (observed predicted : List ℚ) : ℚ :=
  let mean_obs := observed.sum / (observed.length : ℚ)
  let ss_tot := (observed.map fun o => (o - mean_obs) ^ 2).sum
  let ss_res := ((observed.zip predicted).map fun op => (op.1 - op.2) ^ 2).sum
  if ss_tot ≠ 0 then 1 - ss_res / ss_tot else 0

/-- Embeds the private `_finite_difference` helper: central finite-difference gradient.  The Python
loop temporarily overwrites `params[idx]` with `value ± epsilon` and
restores it, which is exactly evaluating the loss at `params.set idx
(value ± epsilon)`. -/
def finite_difference (func : List ℚ → ℚ) (params : List ℚ) (epsilon : ℚ) : List ℚ :=
  (List.range params.length).map fun idx =>
    let value := params.getD idx 0
    (func (params.set idx (value + epsilon)) - func (params.set idx (value - epsilon)))
      / (2 * epsilon)

/-- Python `max(abs(g) for g in grads)` on a nonempty list (Python `max` raises
on an empty one; the fallback `0` is never reached by in-spec calls). -/
def max_abs (grads : List ℚ) : ℚ :=
  match grads.map abs with
  | [] => 0
  | h :: t => t.foldl max h

/-- The body of `_gradient_descent`'s `for iteration in range(...)` loop,
with the remaining iteration count as fuel and `previous_loss` threaded
through.  Per iteration: gradient-tolerance check first (before any
update), then the fixed-step update, then the loss-delta check. -/
def gradient_descent_loop (loss_fn : List ℚ → ℚ) (learning_rate tolerance : ℚ) :
    ℕ → List ℚ → ℚ → List ℚ × Bool × String
  | 0, params, _ => (params, false, "Maximum iterations reached")
  | n + 1, params, previous_loss =>
    let grads := finite_difference loss_fn params (1 / 10000)
    if max_abs grads < tolerance then
      (params, true, "Converged by gradient tolerance")
    else
      let params2 := List.zipWith (fun p g => p - learning_rate * g) params grads
      let current_loss := loss_fn params2
      if |previous_loss - current_loss| < tolerance then
        (params2, true, "Converged by tolerance")
      else
        gradient_descent_loop loss_fn learning_rate tolerance n params2 current_loss

/-- Embeds the private `_gradient_descent` helper: seeds `previous_loss` with the loss at the
initial parameters and runs at most `max_iterations` loop bodies. -/
def gradient_descent (loss_fn : List ℚ → ℚ) (initial_params : List ℚ)
    (learning_rate : ℚ) (max_iterations : ℕ) (tolerance : ℚ) :
    List ℚ × Bool × String :=
  gradient_descent_loop loss_fn learning_rate tolerance max_iterations
    initial_params (loss_fn initial_params)

/-- Embeds the private `_validate_inputs` helper: non-empty, equal length, strictly positive x;
checked in that order, before any fitting. -/
def validate_inputs (xs ys : List ℚ) : Except String (List ℚ × List ℚ) :=
  if xs = [] ∨ ys = [] then
    .error "xs and ys must be non-empty"
  else if xs.length ≠ ys.length then
    .error "xs and ys must have the same length"
  else if xs.any fun x => decide (x ≤ 0) then
    .error "Concentrations must be positive for logistic fitting"
  else
    .ok (xs, ys)

/-- Python `min(list)` on a nonempty list (fallback `0` unreached by
in-spec calls: the fit functions only apply it to validated inputs). -/
def list_min (l : List ℚ) : ℚ :=
  match l with
  | [] => 0
  | h :: t => t.foldl min h

/-- Python `max(list)` on a nonempty list, same caveat as `list_min`. -/
def list_max (l : List ℚ) : ℚ :=
  match l with
  | [] => 0
  | h :: t => t.foldl max h

/-- Embeds `fit_4pl` on the local-optimizer path (the path taken whenever the
SciPy delegate is unavailable or not selected; validation and the
R²/prediction assembly are shared with the delegate path).  The
`params` destructuring mirrors `a, b, c, d = params`; its failure branch
is unreachable because gradient descent preserves the parameter count. -/
def fit_4pl (rpow : ℚ → ℚ → ℚ) (xs ys : List ℚ)
    (learning_rate : ℚ) (max_iterations : ℕ) (tolerance : ℚ) :
    Except String FitResult :=
  match validate_inputs xs ys with
  | .error e => .error e
  | .ok (x_list, y_list) =>
    let a0 := list_min y_list
    let d0 := list_max y_list
    let c0 := x_list.sum / (x_list.length : ℚ)
    let b0 := (1 : ℚ)
    let loss_fn : List ℚ → ℚ := fun p =>
      ((x_list.zip y_list).map fun xy =>
        (four_parameter_logistic rpow xy.1 (p.getD 0 0) (p.getD 1 0) (p.getD 2 0)
          (p.getD 3 0) - xy.2) ^ 2).sum
    let fitted := gradient_descent loss_fn [a0, b0, max c0 (1 / 1000000), d0]
      learning_rate max_iterations tolerance
    match fitted with
    | (params, converged, status) =>
      match params with
      | [a, b, c, d] =>
        let predictions := x_list.map fun x => (x, four_parameter_logistic rpow x a b c d)
        .ok { model := "4PL"
              parameters := [("a", a), ("b", b), ("c", c), ("d", d)]
              r_squared := r_squared y_list (predictions.map Prod.snd)
              predictions := predictions
              converged := converged
              status := status }
      | _ => .error "could not unpack parameters"

/-- Embeds `fit_5pl` on the local-optimizer path, parallel to `fit_4pl` with the
extra asymmetry parameter `g`. -/
def fit_5pl (rpow : ℚ → ℚ → ℚ) (xs ys : List ℚ)
    (learning_rate : ℚ) (max_iterations : ℕ) (tolerance : ℚ) :
    Except String FitResult :=
  match validate_inputs xs ys with
  | .error e => .error e
  | .ok (x_list, y_list) =>
    let a0 := list_min y_list
    let d0 := list_max y_list
    let c0 := x_list.sum / (x_list.length : ℚ)
    let b0 := (1 : ℚ)
    let g0 := (1 : ℚ)
    let loss_fn : List ℚ → ℚ := fun p =>
      ((x_list.zip y_list).map fun xy =>
        (five_parameter_logistic rpow xy.1 (p.getD 0 0) (p.getD 1 0) (p.getD 2 0)
          (p.getD 3 0) (p.getD 4 0) - xy.2) ^ 2).sum
    let fitted := gradient_descent loss_fn [a0, b0, max c0 (1 / 1000000), d0, g0]
      learning_rate max_iterations tolerance
    match fitted with
    | (params, converged, status) =>
      match params with
      | [a, b, c, d, g] =>
        let predictions := x_list.map fun x =>
          (x, five_parameter_logistic rpow x a b c d g)
        .ok { model := "5PL"
              parameters := [("a", a), ("b", b), ("c", c), ("d", d), ("g", g)]
              r_squared := r_squared y_list (predictions.map Prod.snd)
              predictions := predictions
              converged := converged
              status := status }
      | _ => .error "could not unpack parameters"

/-- Embeds `plot_curve`: samples `points` x positions evenly across the span of
the fitted predictions.  `min`/`max` of an empty sequence and the
division `span * i / (points - 1)` raise in Python; both become `.error`
results here.  Parameter lookups use the dictionary values stored by the
fit (`params["a"]` etc.), modelled by association-list lookup. -/
def plot_curve (rpow : ℚ → ℚ → ℚ) (result : FitResult) (points : ℕ) :
    Except String (List (ℚ × ℚ)) :=
  match result.predictions.map Prod.fst with
  | [] => .error "min of empty sequence"
  | x0 :: rest =>
    let min_x := rest.foldl min x0
    let max_x := rest.foldl max x0
    let span := if max_x ≠ min_x then max_x - min_x else 1
    (List.range points).mapM fun i =>
      if points - 1 = 0 then
        .error "float division by zero"
      else
        let x := min_x + span * (i : ℚ) / ((points - 1 : ℕ) : ℚ)
        let prm := result.parameters
        if result.model = "4PL" then
          .ok (x, four_parameter_logistic rpow x ((prm.lookup "a").getD 0)
            ((prm.lookup "b").getD 0) ((prm.lookup "c").getD 0) ((prm.lookup "d").getD 0))
        else
          .ok (x, five_parameter_logistic rpow x ((prm.lookup "a").getD 0)
            ((prm.lookup "b").getD 0) ((prm.lookup "c").getD 0) ((prm.lookup "d").getD 0)
            ((prm.lookup "g").getD 0))

/-! ## SOP step sequencer (`src/sop_runner/workflow.py`)

State-mutating methods are embedded as functions returning the successor
workflow state paired with an `Except` outcome; on an error outcome the
returned state is the state as left by the Python method at the point of
the raise (here always the unmodified input state, since every raise in
the source precedes every mutation). -/

/-- Embeds `StepTemplate`: the immutable per-step definition. -/
structure StepTemplate where
  name : String
  required_start_fields : List String
  required_completion_fields : List String
  min_duration_seconds : Option ℤ
  max_duration_seconds : Option ℤ
  controls : List String
  reagents : List (List (String × String))
deriving DecidableEq, Repr

/-- Embeds `StepRecord`: created on step start, completed on sign-off. -/
structure StepRecord where
  definition : StepTemplate
  operator : String
  started_at : ℤ
  start_data : List (String × String)
  completed_at : Option ℤ
  completion_data : List (String × String)
  signature : Option String
deriving DecidableEq, Repr

/-- Embeds `SOPWorkflow`: templates, growing record list, and cursor
(`_current_index`). -/
structure SOPWorkflow where
  templates : List StepTemplate
  records : List StepRecord
  current_index : ℕ
deriving DecidableEq, Repr

/-- A fresh workflow over the given templates (the dataclass defaults:
no records, cursor `0`). -/
def initWorkflow (templates : List StepTemplate) : SOPWorkflow :=
  { templates := templates, records := [], current_index := 0 }

/-- Embeds `SOPWorkflow.start_next_step`: refuses once all templates are
consumed, validates the required start fields of the *current* template,
then appends a fresh record — without touching the cursor.  `now` stands
for `datetime.utcnow()`. -/
def SOPWorkflow.start_next_step (w : SOPWorkflow) (operator : String)
    (inputs : List (String × String)) (now : ℤ) :
    SOPWorkflow × Except String StepRecord :=
  if h : w.current_index < w.templates.length then
    let defn := w.templates.get ⟨w.current_index, h⟩
    let missing_fields := defn.required_start_fields.filter fun f =>
      !((inputs.map Prod.fst).contains f)
    if missing_fields ≠ [] then
      (w, .error ("Missing required start fields: " ++ String.intercalate ", " missing_fields))
    else
      let record : StepRecord :=
        { definition := defn
          operator := operator
          started_at := now
          start_data := inputs
          completed_at := none
          completion_data := []
          signature := none }
      ({ w with records := w.records ++ [record] }, .ok record)
  else
    (w, .error "All steps completed")

/-- Embeds `SOPWorkflow.sign_off_step`: validates (in source order) that a step
is pending at the cursor, that it is unsigned, that the required
completion fields are present, and that the elapsed duration respects
the template bounds; only then stamps completion
data/signature on the record and advances the cursor.  The optional
`completion_inputs` mirrors the `None` default (`completion_inputs or
{}`). -/
def SOPWorkflow.sign_off_step (w : SOPWorkflow) (signature : String)
    (completion_inputs : Option (List (String × String))) (now : ℤ) :
    SOPWorkflow × Except String StepRecord :=
  let ci := completion_inputs.getD []
  if h : w.current_index < w.records.length then
    let record := w.records.get ⟨w.current_index, h⟩
    if record.completed_at ≠ none then
      (w, .error "Step already signed")
    else
      let missing_fields := record.definition.required_completion_fields.filter fun f =>
        !((ci.map Prod.fst).contains f)
      if missing_fields ≠ [] then
        (w, .error ("Missing required completion fields: " ++
          String.intercalate ", " missing_fields))
      else
        let duration := now - record.started_at
        if (match record.definition.min_duration_seconds with
            | some m => decide (duration < m)
            | none => false) then
          (w, .error "Step completed too quickly")
        else if (match record.definition.max_duration_seconds with
            | some m => decide (duration > m)
            | none => false) then
          (w, .error "Step exceeded maximum duration")
        else
          let record2 := { record with
            completed_at := some now
            completion_data := ci
            signature := some signature }
          ({ w with
              records := w.records.set w.current_index record2
              current_index := w.current_index + 1 },
            .ok record2)
  else
    (w, .error "No step started")

/-- One operator action against a workflow: a step start or a sign-off,
each carrying the wall-clock instant at which it runs. -/
inductive SOPOp where
  | start (operator : String) (inputs : List (String × String)) (now : ℤ)
  | sign (signature : String) (completion_inputs : Option (List (String × String))) (now : ℤ)
deriving DecidableEq, Repr

/-- The state reached after one operator action; a failed action leaves
the state exactly as the method left it (unchanged, per the embedding of
the two methods above). -/
def applyOp (w : SOPWorkflow) : SOPOp → SOPWorkflow
  | .start operator inputs now => (w.start_next_step operator inputs now).1
  | .sign signature ci now => (w.sign_off_step signature ci now).1

/-- The state reached after a sequence of operator actions; every state
reachable from `initWorkflow templates` is `runOps (initWorkflow
templates) ops` for some action list `ops`. -/
def runOps (w : SOPWorkflow) (ops : List SOPOp) : SOPWorkflow :=
  ops.foldl applyOp w

/-! ## Theorems -/

/-- C8: the derived z-score equals `(value - mean) / sd` when `sd` is
nonzero and equals `0` when `sd` is zero (a defined value, never with
magnitude ≥ 1, so never a breach under any rule requiring nonzero
magnitude); a control with value 11, mean 10, sd 1 has z-score exactly
`1`. -/
theorem z_score_definition :
    (∀ r : ControlResult, r.sd ≠ 0 → r.z_score = (r.value - r.mean) / r.sd)
    ∧ (∀ r : ControlResult, r.sd = 0 → r.z_score = 0)
    ∧ (∀ r : ControlResult, r.sd = 0 → ¬ 1 ≤ |r.z_score|)
    ∧ ControlResult.z_score ⟨1, 11, 10, 1⟩ = 1 := by
  refine ⟨?_, ?_, ?_, by norm_num [ControlResult.z_score]⟩
  · intro r hr
    simp [ControlResult.z_score, hr]
  · intro r hr
    simp [ControlResult.z_score, hr]
  · intro r hr
    simp [ControlResult.z_score, hr]

/-- Witness for `z_score_definition` at concrete controls: one with
nonzero sd, one with zero sd. -/
theorem z_score_definition_witness :
    (ControlResult.z_score ⟨1, 11, 10, 1⟩ = (11 - 10) / 1)
    ∧ (ControlResult.z_score ⟨1, 5, 3, 0⟩ = 0)
    ∧ ¬ 1 ≤ |ControlResult.z_score ⟨1, 5, 3, 0⟩| :=
  ⟨z_score_definition.1 ⟨1, 11, 10, 1⟩ (by norm_num),
    z_score_definition.2.1 ⟨1, 5, 3, 0⟩ rfl,
    z_score_definition.2.2.1 ⟨1, 5, 3, 0⟩ rfl⟩

/-- C3: `check_westgard` reports an `r_4s` breach at index `i` exactly
when `i ≥ 1` is in range, the z-scores at `i` and `i-1` have product
`< 0`, and their separation is at least `4`; the two-control input with
z-scores `+2.5` then `-2` yields exactly `[1]`. -/
theorem r_4s_breach_characterization :
    (∀ (results : List ControlResult) (i : ℕ),
      i ∈ (check_westgard results).rule_r_4s ↔
        i < results.length ∧ 1 ≤ i ∧
          (z_scores results).getD i 0 * (z_scores results).getD (i - 1) 0 < 0 ∧
          4 ≤ |(z_scores results).getD i 0 - (z_scores results).getD (i - 1) 0|)
    ∧ (check_westgard [⟨1, 5/2, 0, 1⟩, ⟨2, -2, 0, 1⟩]).rule_r_4s = [1] := by
  constructor
  · intro results i
    simp only [check_westgard, List.mem_filter, List.mem_range, Bool.and_eq_true,
      decide_eq_true_eq]
    tauto
  · with_unfolding_all decide

/-- A contiguous in-bounds slice of a list is the window of indexed
reads it covers. -/
theorem slice_eq_map_range (zs : List ℚ) (a k : ℕ) (h : a + k ≤ zs.length) :
    (zs.drop a).take k = (List.range' a k).map fun j => zs.getD j 0 := by
  apply List.ext_getElem
  · simp only [List.length_take, List.length_drop, List.length_map, List.length_range']
    omega
  · intro i h1 h2
    have ha : a + i < zs.length := by
      simp only [List.length_take, List.length_drop] at h1
      omega
    simp only [List.getElem_take, List.getElem_drop, List.getElem_map, List.getElem_range']
    rw [List.getD_eq_getElem?_getD, List.getElem?_eq_getElem (by omega : a + 1 * i < zs.length)]
    simp

/-- Membership form of `all` over an in-bounds slice, phrased by index. -/
theorem slice_all_iff (zs : List ℚ) (a k : ℕ) (p : ℚ → Bool) (h : a + k ≤ zs.length) :
    ((zs.drop a).take k).all p = true ↔
      ∀ j, a ≤ j → j < a + k → p (zs.getD j 0) = true := by
  rw [slice_eq_map_range zs a k h]
  simp only [List.all_eq_true, List.forall_mem_map, List.mem_range'_1]
  constructor
  · intro H j hj1 hj2
    exact H j ⟨hj1, hj2⟩
  · intro H j hj
    exact H j hj.1 hj.2

/-- C4: `check_westgard` reports a `10_x` breach at index `i` exactly
when `i ≥ 9` is in range and the ten z-scores at indices `i-9 .. i` are
all strictly positive or all strictly negative; ten controls at `z = +1`
give `[9]`, ten at `z = -1` give `[9]`, and ten alternating `±1` give
`[]`. -/
theorem ten_x_breach_characterization :
    (∀ (results : List ControlResult) (i : ℕ),
      i ∈ (check_westgard results).rule_10_x ↔
        i < results.length ∧ 9 ≤ i ∧
          ((∀ j, i - 9 ≤ j → j ≤ i → 0 < (z_scores results).getD j 0) ∨
           (∀ j, i - 9 ≤ j → j ≤ i → (z_scores results).getD j 0 < 0)))
    ∧ (check_westgard (List.replicate 10 ⟨0, 1, 0, 1⟩)).rule_10_x = [9]
    ∧ (check_westgard (List.replicate 10 ⟨0, -1, 0, 1⟩)).rule_10_x = [9]
    ∧ (check_westgard [⟨0, 1, 0, 1⟩, ⟨0, -1, 0, 1⟩, ⟨0, 1, 0, 1⟩, ⟨0, -1, 0, 1⟩,
        ⟨0, 1, 0, 1⟩, ⟨0, -1, 0, 1⟩, ⟨0, 1, 0, 1⟩, ⟨0, -1, 0, 1⟩,
        ⟨0, 1, 0, 1⟩, ⟨0, -1, 0, 1⟩]).rule_10_x = [] := by
  refine ⟨?_, by with_unfolding_all decide, by with_unfolding_all decide,
    by with_unfolding_all decide⟩
  intro results i
  have hlen : (z_scores results).length = results.length := by
    simp [z_scores]
  simp only [check_westgard, List.mem_filter, List.mem_range, Bool.and_eq_true,
    Bool.or_eq_true, decide_eq_true_eq]
  constructor
  · rintro ⟨hn, h9, hall⟩
    have hb : (i - 9) + 10 ≤ (z_scores results).length := by omega
    refine ⟨hn, h9, ?_⟩
    rcases hall with hpos | hneg
    · left
      intro j hj1 hj2
      have := (slice_all_iff _ (i - 9) 10 _ hb).1 hpos j hj1 (by omega)
      simpa using this
    · right
      intro j hj1 hj2
      have := (slice_all_iff _ (i - 9) 10 _ hb).1 hneg j hj1 (by omega)
      simpa using this
  · rintro ⟨hn, h9, hall⟩
    have hb : (i - 9) + 10 ≤ (z_scores results).length := by omega
    refine ⟨hn, h9, ?_⟩
    rcases hall with hpos | hneg
    · left
      rw [slice_all_iff _ (i - 9) 10 _ hb]
      intro j hj1 hj2
      simpa using hpos j hj1 (by omega)
    · right
      rw [slice_all_iff _ (i - 9) 10 _ hb]
      intro j hj1 hj2
      simpa using hneg j hj1 (by omega)

/-! ### Curve-fitting infrastructure -/

theorem length_eq_four {l : List ℚ} : l.length = 4 ↔ ∃ a b c d, l = [a, b, c, d] :=
  ⟨fun _ => let [a, b, c, d] := l; ⟨a, b, c, d, rfl⟩, fun ⟨_, _, _, _, e⟩ => e ▸ rfl⟩

theorem length_eq_five {l : List ℚ} : l.length = 5 ↔ ∃ a b c d g, l = [a, b, c, d, g] :=
  ⟨fun _ => let [a, b, c, d, g] := l; ⟨a, b, c, d, g, rfl⟩, fun ⟨_, _, _, _, _, e⟩ => e ▸ rfl⟩

theorem validate_inputs_ok_eq {xs ys : List ℚ} {p : List ℚ × List ℚ}
    (h : validate_inputs xs ys = .ok p) : p = (xs, ys) := by
  unfold validate_inputs at h
  split_ifs at h
  exact (Except.ok.injEq _ _ ▸ h).symm

theorem validate_inputs_error_iff {xs ys : List ℚ} :
    (∃ e, validate_inputs xs ys = .error e) ↔
      xs = [] ∨ ys = [] ∨ xs.length ≠ ys.length ∨ ∃ x ∈ xs, x ≤ 0 := by
  unfold validate_inputs
  split_ifs with h1 h2 h3
  · simp only [Except.error.injEq, exists_eq']
    tauto
  · simp only [Except.error.injEq, exists_eq']
    tauto
  · simp only [Except.error.injEq, exists_eq', true_iff]
    right; right; right
    simpa [List.any_eq_true] using h3
  · simp only [reduceCtorEq, exists_false, false_iff]
    push_neg
    refine ⟨?_, ?_, not_ne_iff.mp h2, ?_⟩
    · intro hx; exact h1 (Or.inl hx)
    · intro hy; exact h1 (Or.inr hy)
    · intro x hx
      by_contra hc
      exact h3 (List.any_eq_true.2 ⟨x, hx, by simpa using hc⟩)

theorem finite_difference_length (func : List ℚ → ℚ) (params : List ℚ) (eps : ℚ) :
    (finite_difference func params eps).length = params.length := by
  simp [finite_difference]

theorem gradient_descent_loop_length (f : List ℚ → ℚ) (lr tol : ℚ) :
    ∀ (n : ℕ) (params : List ℚ) (prev : ℚ),
      (gradient_descent_loop f lr tol n params prev).1.length = params.length := by
  intro n
  induction n with
  | zero => intro params prev; rfl
  | succ n ih =>
    intro params prev
    simp only [gradient_descent_loop]
    split
    · rfl
    · split
      · simp [List.length_zipWith, finite_difference_length]
      · rw [ih]
        simp [List.length_zipWith, finite_difference_length]

theorem gradient_descent_length (f : List ℚ → ℚ) (init : List ℚ) (lr : ℚ) (mi : ℕ)
    (tol : ℚ) : (gradient_descent f init lr mi tol).1.length = init.length :=
  gradient_descent_loop_length f lr tol mi init (f init)

/-- Modelled from the claim's wording: the sum of squared residuals
between observed and predicted y. -/
def spec_ss_res (observed predicted : List ℚ) : ℚ :=
  ((observed.zip predicted).map fun op => (op.1 - op.2) ^ 2).sum

/-- Modelled from the claim's wording: the sum of squared deviations of
observed y from its mean. -/
def spec_ss_tot (observed : List ℚ) : ℚ :=
  (observed.map fun o => (o - observed.sum / (observed.length : ℚ)) ^ 2).sum

theorem r_squared_eq_spec (observed predicted : List ℚ) :
    r_squared observed predicted =
      if spec_ss_tot observed = 0 then 0
      else 1 - spec_ss_res observed predicted / spec_ss_tot observed := by
  unfold r_squared spec_ss_tot spec_ss_res
  by_cases h : (observed.map fun o => (o - observed.sum / (observed.length : ℚ)) ^ 2).sum = 0
  · simp [h]
  · simp [h]

theorem fit_4pl_ok_r_squared {rpow : ℚ → ℚ → ℚ} {xs ys : List ℚ} {lr : ℚ} {mi : ℕ}
    {tol : ℚ} {res : FitResult} (h : fit_4pl rpow xs ys lr mi tol = .ok res) :
    res.r_squared = r_squared ys (res.predictions.map Prod.snd) := by
  unfold fit_4pl at h
  split at h
  · exact absurd h (by simp)
  · next x_list y_list heq =>
    obtain ⟨rfl, rfl⟩ : x_list = xs ∧ y_list = ys := by
      have := validate_inputs_ok_eq heq
      exact ⟨congrArg Prod.fst this, congrArg Prod.snd this⟩
    dsimp only at h
    split at h
    · next a b c d hp =>
      cases h
      rfl
    · exact absurd h (by simp)

theorem fit_5pl_ok_r_squared {rpow : ℚ → ℚ → ℚ} {xs ys : List ℚ} {lr : ℚ} {mi : ℕ}
    {tol : ℚ} {res : FitResult} (h : fit_5pl rpow xs ys lr mi tol = .ok res) :
    res.r_squared = r_squared ys (res.predictions.map Prod.snd) := by
  unfold fit_5pl at h
  split at h
  · exact absurd h (by simp)
  · next x_list y_list heq =>
    obtain ⟨rfl, rfl⟩ : x_list = xs ∧ y_list = ys := by
      have := validate_inputs_ok_eq heq
      exact ⟨congrArg Prod.fst this, congrArg Prod.snd this⟩
    dsimp only at h
    split at h
    · next a b c d g hp =>
      cases h
      rfl
    · exact absurd h (by simp)

/-- C7: for every successful fit (4PL or 5PL), the reported R² equals
`1 - SS_res / SS_tot` over the observed y and the fit's predicted y,
and is exactly `0` when `SS_tot` is zero (all observed y equal) rather
than a division error. -/
theorem fit_r_squared_formula :
    ∀ (rpow : ℚ → ℚ → ℚ) (xs ys : List ℚ) (lr : ℚ) (mi : ℕ) (tol : ℚ) (res : FitResult),
      (fit_4pl rpow xs ys lr mi tol = .ok res ∨ fit_5pl rpow xs ys lr mi tol = .ok res) →
        res.r_squared =
          if spec_ss_tot ys = 0 then 0
          else 1 - spec_ss_res ys (res.predictions.map Prod.snd) / spec_ss_tot ys := by
  intro rpow xs ys lr mi tol res h
  rcases h with h | h
  · rw [fit_4pl_ok_r_squared h, r_squared_eq_spec]
  · rw [fit_5pl_ok_r_squared h, r_squared_eq_spec]

/-- The result of the concrete successful fit used as the witness for
`fit_r_squared_formula`. -/
def sample4plFit : FitResult :=
  { model := "4PL"
    parameters := [("a", 1), ("b", 1), ("c", 1), ("d", 1)]
    r_squared := 0
    predictions := [(1, 1)]
    converged := true
    status := "Converged by gradient tolerance" }

/-- Witness for `fit_r_squared_formula`: a concrete one-point fit whose
constant observed y makes SS_tot zero and R² zero. -/
theorem fit_r_squared_formula_witness :
    sample4plFit.r_squared =
      if spec_ss_tot [1] = 0 then 0
      else 1 - spec_ss_res [1] (sample4plFit.predictions.map Prod.snd) / spec_ss_tot [1] :=
  fit_r_squared_formula (fun _ _ => 1) [1] [1] 1 1 1 sample4plFit
    (Or.inl (by with_unfolding_all rfl))

theorem fit_4pl_error_of_validate {rpow : ℚ → ℚ → ℚ} {xs ys : List ℚ} {lr : ℚ}
    {mi : ℕ} {tol : ℚ} {e : String} (h : validate_inputs xs ys = .error e) :
    fit_4pl rpow xs ys lr mi tol = .error e := by
  unfold fit_4pl
  rw [h]

theorem fit_5pl_error_of_validate {rpow : ℚ → ℚ → ℚ} {xs ys : List ℚ} {lr : ℚ}
    {mi : ℕ} {tol : ℚ} {e : String} (h : validate_inputs xs ys = .error e) :
    fit_5pl rpow xs ys lr mi tol = .error e := by
  unfold fit_5pl
  rw [h]

theorem fit_4pl_error_imp {rpow : ℚ → ℚ → ℚ} {xs ys : List ℚ} {lr : ℚ} {mi : ℕ}
    {tol : ℚ} {e : String} (h : fit_4pl rpow xs ys lr mi tol = .error e) :
    validate_inputs xs ys = .error e := by
  unfold fit_4pl at h
  split at h
  · next e' heq =>
    cases h
    exact heq
  · next x_list y_list heq =>
    dsimp only at h
    split at h
    · exact absurd h (by simp)
    · next params hne =>
      exfalso
      obtain ⟨a, b, c, d, hp⟩ := length_eq_four.mp
        (gradient_descent_length
          (fun p => (List.map
            (fun xy => (four_parameter_logistic rpow xy.1 (p.getD 0 0) (p.getD 1 0)
              (p.getD 2 0) (p.getD 3 0) - xy.2) ^ 2) (x_list.zip y_list)).sum)
          [list_min y_list, 1, x_list.sum / (x_list.length : ℚ) ⊔ 1 / 1000000, list_max y_list]
          lr mi tol)
      exact hne a b c d hp

theorem fit_5pl_error_imp {rpow : ℚ → ℚ → ℚ} {xs ys : List ℚ} {lr : ℚ} {mi : ℕ}
    {tol : ℚ} {e : String} (h : fit_5pl rpow xs ys lr mi tol = .error e) :
    validate_inputs xs ys = .error e := by
  unfold fit_5pl at h
  split at h
  · next e' heq =>
    cases h
    exact heq
  · next x_list y_list heq =>
    dsimp only at h
    split at h
    · exact absurd h (by simp)
    · next params hne =>
      exfalso
      obtain ⟨a, b, c, d, g, hp⟩ := length_eq_five.mp
        (gradient_descent_length
          (fun p => (List.map
            (fun xy => (five_parameter_logistic rpow xy.1 (p.getD 0 0) (p.getD 1 0)
              (p.getD 2 0) (p.getD 3 0) (p.getD 4 0) - xy.2) ^ 2) (x_list.zip y_list)).sum)
          [list_min y_list, 1, x_list.sum / (x_list.length : ℚ) ⊔ 1 / 1000000,
            list_max y_list, 1]
          lr mi tol)
      exact hne a b c d g hp

/-- C5: `fit_4pl` and `fit_5pl` fail with an input-validation error —
before any fitting — exactly when the inputs are empty, of unequal
length, or contain a non-positive x; with the claim's four concrete
inputs producing the non-empty-input, length-mismatch, and positivity
errors respectively. -/
theorem fit_input_validation :
    ∀ (rpow : ℚ → ℚ → ℚ) (lr : ℚ) (mi : ℕ) (tol : ℚ),
      (∀ xs ys : List ℚ,
        (∃ e, fit_4pl rpow xs ys lr mi tol = .error e) ↔
          xs = [] ∨ ys = [] ∨ xs.length ≠ ys.length ∨ ∃ x ∈ xs, x ≤ 0)
      ∧ (∀ xs ys : List ℚ,
        (∃ e, fit_5pl rpow xs ys lr mi tol = .error e) ↔
          xs = [] ∨ ys = [] ∨ xs.length ≠ ys.length ∨ ∃ x ∈ xs, x ≤ 0)
      ∧ fit_4pl rpow [] [] lr mi tol = .error "xs and ys must be non-empty"
      ∧ fit_4pl rpow [1/10, 1/5] [1] lr mi tol = .error "xs and ys must have the same length"
      ∧ fit_4pl rpow [0, 1/2] [1, 6/5] lr mi tol
          = .error "Concentrations must be positive for logistic fitting"
      ∧ fit_4pl rpow [-1, 1/2] [1, 6/5] lr mi tol
          = .error "Concentrations must be positive for logistic fitting" := by
  intro rpow lr mi tol
  refine ⟨?_, ?_,
    fit_4pl_error_of_validate (by with_unfolding_all rfl),
    fit_4pl_error_of_validate (by with_unfolding_all rfl),
    fit_4pl_error_of_validate (by with_unfolding_all rfl),
    fit_4pl_error_of_validate (by with_unfolding_all rfl)⟩
  · intro xs ys
    constructor
    · rintro ⟨e, h⟩
      exact validate_inputs_error_iff.1 ⟨e, fit_4pl_error_imp h⟩
    · intro hcond
      obtain ⟨e, hv⟩ := validate_inputs_error_iff.2 hcond
      exact ⟨e, fit_4pl_error_of_validate hv⟩
  · intro xs ys
    constructor
    · rintro ⟨e, h⟩
      exact validate_inputs_error_iff.1 ⟨e, fit_5pl_error_imp h⟩
    · intro hcond
      obtain ⟨e, hv⟩ := validate_inputs_error_iff.2 hcond
      exact ⟨e, fit_5pl_error_of_validate hv⟩

theorem gradient_descent_loop_status (f : List ℚ → ℚ) (lr tol : ℚ) :
    ∀ (n : ℕ) (params : List ℚ) (prev : ℚ),
      (gradient_descent_loop f lr tol n params prev).2.1 = false →
      (gradient_descent_loop f lr tol n params prev).2.2 = "Maximum iterations reached" := by
  intro n
  induction n with
  | zero => intro params prev _; rfl
  | succ n ih =>
    intro params prev h
    simp only [gradient_descent_loop] at h ⊢
    by_cases h1 : max_abs (finite_difference f params (1 / 10000)) < tol
    · rw [if_pos h1] at h
      simp at h
    · rw [if_neg h1] at h ⊢
      by_cases h2 : |prev - f (List.zipWith (fun p g => p - lr * g) params
          (finite_difference f params (1 / 10000)))| < tol
      · rw [if_pos h2] at h
        simp at h
      · rw [if_neg h2] at h ⊢
        exact ih _ _ h

/-- C2: the local gradient-descent optimizer checks its two stopping
conditions in a fixed order each iteration — the gradient-tolerance
check first, before any update (so zero-iteration convergence returns
the initial parameters with the gradient-specific message), then the
fixed-step update `p - learning_rate * g` followed by the loss-delta
check with its distinct message — and when neither triggers within the
iteration budget it reports `converged = false` with status
"Maximum iterations reached". -/
theorem gradient_descent_stopping_conditions :
    (∀ (f : List ℚ → ℚ) (lr tol : ℚ) (n : ℕ) (params : List ℚ) (prev : ℚ),
      gradient_descent_loop f lr tol (n + 1) params prev =
        if max_abs (finite_difference f params (1 / 10000)) < tol then
          (params, true, "Converged by gradient tolerance")
        else
          if |prev - f (List.zipWith (fun p g => p - lr * g) params
              (finite_difference f params (1 / 10000)))| < tol then
            (List.zipWith (fun p g => p - lr * g) params
              (finite_difference f params (1 / 10000)), true, "Converged by tolerance")
          else
            gradient_descent_loop f lr tol n
              (List.zipWith (fun p g => p - lr * g) params
                (finite_difference f params (1 / 10000)))
              (f (List.zipWith (fun p g => p - lr * g) params
                (finite_difference f params (1 / 10000)))))
    ∧ (∀ (f : List ℚ → ℚ) (init : List ℚ) (lr tol : ℚ) (n : ℕ), init ≠ [] →
        max_abs (finite_difference f init (1 / 10000)) < tol →
        gradient_descent f init lr (n + 1) tol
          = (init, true, "Converged by gradient tolerance"))
    ∧ (∀ (f : List ℚ → ℚ) (init : List ℚ) (lr tol : ℚ) (n : ℕ), init ≠ [] →
        ¬ max_abs (finite_difference f init (1 / 10000)) < tol →
        |f init - f (List.zipWith (fun p g => p - lr * g) init
          (finite_difference f init (1 / 10000)))| < tol →
        gradient_descent f init lr (n + 1) tol =
          (List.zipWith (fun p g => p - lr * g) init
            (finite_difference f init (1 / 10000)), true, "Converged by tolerance"))
    ∧ (∀ (f : List ℚ → ℚ) (init : List ℚ) (lr : ℚ) (mi : ℕ) (tol : ℚ),
        (gradient_descent f init lr mi tol).2.1 = false →
        (gradient_descent f init lr mi tol).2.2 = "Maximum iterations reached") := by
  refine ⟨?_, ?_, ?_, ?_⟩
  · intro f lr tol n params prev
    rfl
  · intro f init lr tol n _ h
    unfold gradient_descent
    simp only [gradient_descent_loop]
    rw [if_pos h]
  · intro f init lr tol n _ h1 h2
    unfold gradient_descent
    simp only [gradient_descent_loop]
    rw [if_neg h1, if_pos h2]
  · intro f init lr mi tol h
    exact gradient_descent_loop_status f lr tol mi init (f init) h

/-- Witness for `gradient_descent_stopping_conditions`: a constant loss
converges at iteration zero by gradient tolerance; a sum loss with zero
learning rate converges by loss delta; the same loss with zero tolerance
exhausts its single iteration. -/
theorem gradient_descent_stopping_conditions_witness :
    gradient_descent (fun _ => (0 : ℚ)) [0] 1 1 1 = ([0], true, "Converged by gradient tolerance")
    ∧ gradient_descent (fun l => l.sum) [0] 0 1 1 =
        (List.zipWith (fun p g => p - 0 * g) [0]
          (finite_difference (fun l => l.sum) [0] (1 / 10000)), true, "Converged by tolerance")
    ∧ (gradient_descent (fun l => l.sum) [0] 0 1 0).2.2 = "Maximum iterations reached" :=
  ⟨gradient_descent_stopping_conditions.2.1 (fun _ => 0) [0] 1 1 0 (by simp)
      (by with_unfolding_all decide),
    gradient_descent_stopping_conditions.2.2.1 (fun l => l.sum) [0] 0 1 0 (by simp)
      (by with_unfolding_all decide) (by with_unfolding_all decide),
    gradient_descent_stopping_conditions.2.2.2 (fun l => l.sum) [0] 0 1 0
      (by with_unfolding_all decide)⟩

/-- C10: for a fit result with at least one prediction, `plot_curve`
with `points = 1` hits an unguarded division by `points - 1 = 0` and
raises instead of returning a one-point sequence, while `points = 0`
returns an empty list without error (the loop body never runs). -/
theorem plot_curve_degenerate_points :
    ∀ (rpow : ℚ → ℚ → ℚ) (result : FitResult), result.predictions ≠ [] →
      plot_curve rpow result 1 = .error "float division by zero"
      ∧ plot_curve rpow result 0 = .ok [] := by
  intro rpow result h
  obtain ⟨p, rest, hpred⟩ : ∃ p rest, result.predictions = p :: rest := by
    cases hp : result.predictions with
    | nil => exact absurd hp h
    | cons p rest => exact ⟨p, rest, rfl⟩
  constructor
  · unfold plot_curve
    rw [hpred]
    rfl
  · unfold plot_curve
    rw [hpred]
    rfl

/-- Witness for `plot_curve_degenerate_points` at the concrete
`sample4plFit` result. -/
theorem plot_curve_degenerate_points_witness :
    plot_curve (fun _ _ => 1) sample4plFit 1 = .error "float division by zero"
    ∧ plot_curve (fun _ _ => 1) sample4plFit 0 = .ok [] :=
  plot_curve_degenerate_points (fun _ _ => 1) sample4plFit (by simp [sample4plFit])

/-! ### SOP sequencer theorems -/

/-- C6: whenever `sign_off_step` fails — no step pending at the cursor,
step already signed, missing completion fields, or duration out of
bounds — the workflow state is completely unchanged: cursor, record
list, and hence every record's completion timestamp, completion data
and signature are as before the call. -/
theorem sign_off_failure_leaves_state_unchanged :
    ∀ (w : SOPWorkflow) (signature : String) (ci : Option (List (String × String)))
      (now : ℤ) (e : String),
      (w.sign_off_step signature ci now).2 = .error e →
      (w.sign_off_step signature ci now).1 = w := by
  intro w s ci now e h
  have key : (w.sign_off_step s ci now).1 = w ∨ ∃ r, (w.sign_off_step s ci now).2 = .ok r := by
    unfold SOPWorkflow.sign_off_step
    dsimp only
    repeat' split
    all_goals simp
  rcases key with h1 | ⟨r, h2⟩
  · exact h1
  · rw [h2] at h
    exact absurd h (by simp)

/-- A one-step template with no required fields or duration bounds. -/
def sampleTemplate : StepTemplate :=
  { name := "prep"
    required_start_fields := []
    required_completion_fields := []
    min_duration_seconds := none
    max_duration_seconds := none
    controls := []
    reagents := [] }

/-- A fresh workflow over `sampleTemplate`. -/
def sampleWorkflow : SOPWorkflow := initWorkflow [sampleTemplate]

/-- Witness for `sign_off_failure_leaves_state_unchanged`: signing off a
fresh workflow fails with "No step started" and leaves it unchanged. -/
theorem sign_off_failure_leaves_state_unchanged_witness :
    (sampleWorkflow.sign_off_step "sig" none 0).1 = sampleWorkflow :=
  sign_off_failure_leaves_state_unchanged sampleWorkflow "sig" none 0 "No step started"
    (by rfl)

/-- The record `start_next_step` creates on success. -/
def started_record (w : SOPWorkflow) (h : w.current_index < w.templates.length)
    (operator : String) (inputs : List (String × String)) (now : ℤ) : StepRecord :=
  { definition := w.templates.get ⟨w.current_index, h⟩
    operator := operator
    started_at := now
    start_data := inputs
    completed_at := none
    completion_data := []
    signature := none }

theorem start_next_step_eq (w : SOPWorkflow) (operator : String)
    (inputs : List (String × String)) (now : ℤ)
    (h : w.current_index < w.templates.length)
    (hm : (w.templates.get ⟨w.current_index, h⟩).required_start_fields.filter
      (fun f => !((inputs.map Prod.fst).contains f)) = []) :
    w.start_next_step operator inputs now =
      ({ w with records := w.records ++ [started_record w h operator inputs now] },
        .ok (started_record w h operator inputs now)) := by
  unfold SOPWorkflow.start_next_step
  rw [dif_pos h]
  dsimp only
  rw [if_neg (fun hne => hne hm)]
  rfl

/-- C9: when the cursor is below the template count and the required
start fields are present, `start_next_step` succeeds even while an
earlier started step is still unsigned — two consecutive starts both
succeed, appending two records for the same template (distinct whenever
their start instants differ) and leaving the cursor unchanged. -/
theorem double_start_allowed :
    ∀ (w : SOPWorkflow) (operator : String) (inputs : List (String × String))
      (t1 t2 : ℤ) (h : w.current_index < w.templates.length),
      (∀ f ∈ (w.templates.get ⟨w.current_index, h⟩).required_start_fields,
        f ∈ inputs.map Prod.fst) →
      ∃ r1 r2,
        (w.start_next_step operator inputs t1).2 = .ok r1 ∧
        ((w.start_next_step operator inputs t1).1.start_next_step operator inputs t2).2
          = .ok r2 ∧
        ((w.start_next_step operator inputs t1).1.start_next_step operator inputs t2).1.records
          = w.records ++ [r1, r2] ∧
        ((w.start_next_step operator inputs t1).1.start_next_step operator inputs t2).1.current_index
          = w.current_index ∧
        r1.definition = w.templates.get ⟨w.current_index, h⟩ ∧
        r2.definition = w.templates.get ⟨w.current_index, h⟩ ∧
        (t1 ≠ t2 → r1 ≠ r2) := by
  intro w operator inputs t1 t2 h hf
  have hm : (w.templates.get ⟨w.current_index, h⟩).required_start_fields.filter
      (fun f => !((inputs.map Prod.fst).contains f)) = [] := by
    rw [List.filter_eq_nil_iff]
    intro f hfmem
    simp [List.elem_iff, hf f hfmem]
  rw [start_next_step_eq w operator inputs t1 h hm]
  dsimp only
  rw [start_next_step_eq
    ({ w with records := w.records ++ [started_record w h operator inputs t1] })
    operator inputs t2 h hm]
  refine ⟨started_record w h operator inputs t1,
    started_record { w with records := w.records ++ [started_record w h operator inputs t1] }
      h operator inputs t2,
    rfl, rfl, ?_, rfl, rfl, rfl, ?_⟩
  · simp [List.append_assoc]
  · intro hne heq
    exact hne (congrArg StepRecord.started_at heq)

/-- Witness for `double_start_allowed`: two starts on the fresh
one-template workflow, at instants 0 and 1, with no required fields. -/
theorem double_start_allowed_witness :
    ∃ r1 r2,
      (sampleWorkflow.start_next_step "alice" [] 0).2 = .ok r1 ∧
      ((sampleWorkflow.start_next_step "alice" [] 0).1.start_next_step "alice" [] 1).2
        = .ok r2 ∧
      ((sampleWorkflow.start_next_step "alice" [] 0).1.start_next_step "alice" [] 1).1.records
        = sampleWorkflow.records ++ [r1, r2] ∧
      ((sampleWorkflow.start_next_step "alice" [] 0).1.start_next_step "alice" [] 1).1.current_index
        = sampleWorkflow.current_index ∧
      r1.definition = sampleWorkflow.templates.get ⟨sampleWorkflow.current_index, by decide⟩ ∧
      r2.definition = sampleWorkflow.templates.get ⟨sampleWorkflow.current_index, by decide⟩ ∧
      ((0 : ℤ) ≠ 1 → r1 ≠ r2) :=
  double_start_allowed sampleWorkflow "alice" [] 0 1 (by decide) (by decide)

theorem applyOp_cursor_le (w : SOPWorkflow) (op : SOPOp)
    (h : w.current_index ≤ w.records.length) :
    (applyOp w op).current_index ≤ (applyOp w op).records.length := by
  cases op with
  | start operator inputs now =>
    unfold applyOp SOPWorkflow.start_next_step
    dsimp only
    repeat' split
    all_goals simp_all
    omega
  | sign signature ci now =>
    unfold applyOp SOPWorkflow.sign_off_step
    dsimp only
    repeat' split
    all_goals simp_all
    omega

theorem applyOp_cursor_mono (w : SOPWorkflow) (op : SOPOp) :
    w.current_index ≤ (applyOp w op).current_index := by
  cases op with
  | start operator inputs now =>
    unfold applyOp SOPWorkflow.start_next_step
    dsimp only
    repeat' split
    all_goals simp
  | sign signature ci now =>
    unfold applyOp SOPWorkflow.sign_off_step
    dsimp only
    repeat' split
    all_goals simp

theorem runOps_cursor_le : ∀ (ops : List SOPOp) (w : SOPWorkflow),
    w.current_index ≤ w.records.length →
    (runOps w ops).current_index ≤ (runOps w ops).records.length := by
  intro ops
  induction ops with
  | nil => intro w h; exact h
  | cons op ops ih => intro w h; exact ih _ (applyOp_cursor_le w op h)

theorem runOps_cursor_mono : ∀ (ops : List SOPOp) (w : SOPWorkflow),
    w.current_index ≤ (runOps w ops).current_index := by
  intro ops
  induction ops with
  | nil => intro w; exact Nat.le_refl _
  | cons op ops ih =>
    intro w
    exact Nat.le_trans (applyOp_cursor_mono w op) (ih (applyOp w op))

/-- C1 (amended): at every reachable state the cursor is at most the
number of records (equality is not maintained: a started, unsigned step
makes the record list strictly longer), and the cursor never decreases
across any operation, successful or failed.  The cursor is *not*
bounded by the template count (see the counterexample). -/
theorem sop_cursor_invariant :
    (∀ (templates : List StepTemplate) (ops : List SOPOp),
      (runOps (initWorkflow templates) ops).current_index
        ≤ (runOps (initWorkflow templates) ops).records.length)
    ∧ (∀ (w : SOPWorkflow) (op : SOPOp), w.current_index ≤ (applyOp w op).current_index)
    ∧ (∀ (w : SOPWorkflow) (ops : List SOPOp), w.current_index ≤ (runOps w ops).current_index) :=
  ⟨fun _ ops => runOps_cursor_le ops _ (Nat.le_refl 0),
    applyOp_cursor_mono,
    fun w ops => runOps_cursor_mono ops w⟩

/-- C1 counterexample: after two consecutive starts on a one-template
workflow the record count (2) differs from the cursor (0), and after
additionally signing off twice the cursor (2) exceeds the template
count (1) — refuting both `len(records) == cursor` "always" and
"never exceeds template count". -/
theorem sop_records_equal_cursor_fails :
    ((runOps (initWorkflow [sampleTemplate])
        [.start "a" [] 0, .start "a" [] 0]).records.length ≠
      (runOps (initWorkflow [sampleTemplate])
        [.start "a" [] 0, .start "a" [] 0]).current_index)
    ∧ (initWorkflow [sampleTemplate]).templates.length <
        (runOps (initWorkflow [sampleTemplate])
          [.start "a" [] 0, .start "a" [] 0, .sign "s" none 0, .sign "s" none 0]).current_index := by
  decide

end ElisaLab
